import Mathlib

/-!
Shallow embedding of the job-lifecycle core of the website-scanner
repository: the `CrawlJob` record and its status machine
(`app/models/crawl_job.py`), the cancel/retry API operations
(`app/api/v1/jobs.py`), and the two Celery executors
(`app/services/tasks/crawl_tasks.py`,
`app/services/tasks/website_check_tasks.py`).

Modelling conventions:
- SQLAlchemy timestamps are opaque instants, modelled as `Nat`; nullable
  columns are `Option`s.  The server-managed `uuid`, `created_at` and
  `updated_at` columns are never read or written by the modelled logic and
  are omitted.
- The session created by `get_db_session` / `get_db`
  (`app/database/connection.py`) has `autocommit=False, autoflush=False`.
  Consequently (a) an API handler that raises before `db.commit()` leaves
  the persisted record unchanged (the session is closed without a commit,
  discarding pending changes), modelled by returning `Except.error` without
  a new record, and (b) a `db.query(...)` only sees rows already committed,
  never objects merely `db.add`ed in the current session.
- Confidence scores are exact rationals (`Rat`), so 0.9 and 0.7 are `9/10`
  and `7/10`.
-/

/-- `JobStatus` enum, `app/models/crawl_job.py` lines 14-20. -/
inductive JobStatus where
  | pending
  | running
  | completed
  | failed
  | cancelled
deriving DecidableEq, Repr, BEq

/-- `JobType` enum, `app/models/crawl_job.py` lines 23-30. -/
inductive JobType where
  | google_maps
  | linkedin
  | facebook
  | chamber_of_commerce
  | website_check
  | data_enrichment
deriving DecidableEq, Repr, BEq

/-- The `CrawlJob` row, `app/models/crawl_job.py` lines 33-70 (surrogate
`uuid` and server-managed `created_at`/`updated_at` omitted; timestamps as
opaque `Nat` instants). -/
structure CrawlJob where
  id : Nat
  name : String
  job_type : JobType
  status : JobStatus
  parameters : Option String
  target_location : Option String
  target_industry : Option String
  total_items : Nat
  processed_items : Nat
  successful_items : Nat
  failed_items : Nat
  error_message : Option String
  retry_count : Nat
  max_retries : Nat
  celery_task_id : Option String
  started_at : Option Nat
  completed_at : Option Nat
deriving DecidableEq, Repr

/-- `CrawlJob.can_retry` property, `app/models/crawl_job.py` lines 120-123. -/
def CrawlJob.can_retry (j : CrawlJob) : Bool :=
  j.status == JobStatus.failed && j.retry_count < j.max_retries

/-- `CrawlJob.is_completed` property, `app/models/crawl_job.py` lines 115-118. -/
def CrawlJob.is_completed (j : CrawlJob) : Bool :=
  j.status == JobStatus.completed || j.status == JobStatus.failed ||
    j.status == JobStatus.cancelled

/-- A Celery `send_task` dispatch, as issued by `app/api/v1/jobs.py`
(`crawl_tasks.crawl_google_maps` with `args=[job.id, location, industry]`,
`website_check_tasks.check_websites` with `args=[job.id, business_ids]`). -/
inductive DispatchCall where
  | crawlGoogleMaps (job_id : Nat) (location : Option String) (industry : Option String)
  | checkWebsites (job_id : Nat) (business_ids : Option (List Nat))
deriving DecidableEq, Repr

/-- `cancel_job` endpoint, `app/api/v1/jobs.py` lines 121-139: reject with
HTTP 400 unless the status is pending or running (nothing committed), else
set `status = CANCELLED` and commit.  No other field is touched; in
particular `completed_at` is not set. -/
def cancel_job (j : CrawlJob) : Except String CrawlJob :=
  if j.status = JobStatus.pending ∨ j.status = JobStatus.running then
    Except.ok { j with status := JobStatus.cancelled }
  else
    Except.error "Job cannot be cancelled"

/-- `retry_job` endpoint, `app/api/v1/jobs.py` lines 142-175: reject with
HTTP 400 when `can_retry` is false; otherwise set `status = PENDING`,
increment `retry_count`, clear `error_message`, and re-dispatch by job
type.  For a job type other than GOOGLE_MAPS or WEBSITE_CHECK the handler
raises HTTP 400 *before* `db.commit()`, so the in-session mutations are
discarded when the session closes (autocommit is off) and the persisted
record is unchanged — modelled by the `Except.error` branch.
`completed_at` is never assigned on this path. -/
def retry_job (j : CrawlJob) (newTaskId : String) :
    Except String (CrawlJob × DispatchCall) :=
  if j.can_retry = false then
    Except.error "Job cannot be retried"
  else
    let j1 := { j with status := JobStatus.pending,
                       retry_count := j.retry_count + 1,
                       error_message := none }
    match j.job_type with
    | JobType.google_maps =>
        Except.ok ({ j1 with celery_task_id := some newTaskId },
          DispatchCall.crawlGoogleMaps j.id j.target_location j.target_industry)
    | JobType.website_check =>
        Except.ok ({ j1 with celery_task_id := some newTaskId },
          DispatchCall.checkWebsites j.id none)
    | _ => Except.error "Unsupported job type for retry"

/-- The executor prologue shared by both tasks
(`crawl_tasks.py` lines 27-30, `website_check_tasks.py` lines 30-33):
unconditionally set `status = RUNNING` and assign `started_at` to the
current time, then commit. -/
def executor_start (j : CrawlJob) (now : Nat) : CrawlJob :=
  { j with status := JobStatus.running, started_at := some now }

/-- The executor success epilogue (`crawl_tasks.py` lines 101-108,
`website_check_tasks.py` lines 107-114): unconditionally set
`status = COMPLETED`, `completed_at`, and the four counters
(`processed_items` is assigned the same value as `total_items`), then
commit.  The write does not consult the job's current status. -/
def finalize_success (j : CrawlJob) (now : Nat) (total ok bad : Nat) : CrawlJob :=
  { j with status := JobStatus.completed,
           completed_at := some now,
           total_items := total,
           processed_items := total,
           successful_items := ok,
           failed_items := bad }

/-- The executor failure handler (`crawl_tasks.py` lines 123-126,
`website_check_tasks.py` lines 130-133): unconditionally set
`status = FAILED` and `error_message`, then commit.  `completed_at` is not
assigned, and the job's current status is not consulted. -/
def finalize_failure (j : CrawlJob) (msg : String) : CrawlJob :=
  { j with status := JobStatus.failed, error_message := some msg }

/-- The `Business` row (`app/models/business.py`), restricted to the
columns the modelled executors read or write: `id`, `name`, the cached
website fields, and the provenance pair `(source, source_id)`.  The
remaining columns (address, contact, classification, quality flags) are
carried by no claim and never consulted by the job/executor logic. -/
structure BusinessR where
  id : Nat
  name : String
  website_exists : Option Bool
  website_url : Option String
  website_confidence_score : Option Rat
  last_checked : Option Nat
  source : Option String
  source_id : Option String
deriving DecidableEq, Repr

/-- The `WebsiteCheck` row (`app/models/website_check.py`), restricted to
the columns `check_websites` assigns.  The code stores `dns_records` and
`headers` as `str(...)` of the gathered Python values; they are modelled
structurally. -/
structure WebsiteCheckR where
  business_id : Nat
  check_type : String
  url_checked : String
  website_exists : Bool
  confidence_score : Rat
  status_code : Option Nat
  response_time : Option Nat
  dns_records : List String
  headers : List (String × String)
  error_message : Option String
  is_error : Bool
deriving DecidableEq, Repr

/-- Outcome of `dns.resolver.resolve(domain, 'A')` as the code
distinguishes it (`website_check_tasks.py` lines 163-189): a list of A
records, the `NXDOMAIN` exception, or any other exception. -/
inductive DnsOutcome where
  | resolved (records : List String)
  | nxdomain
  | dnsError (msg : String)
deriving DecidableEq, Repr

/-- Outcome of `requests.get(f"https://{domain}", ...)`: a response
carrying a status code, headers and an elapsed time, or an exception. -/
inductive HttpOutcome where
  | response (status : Nat) (headers : List (String × String)) (elapsed : Nat)
  | httpError (msg : String)
deriving DecidableEq, Repr

/-- The external website probe, per the spec an external collaborator:
`resolve d` models `dns.resolver.resolve(d, 'A')` and `fetch d` models
`requests.get("https://" ++ d, timeout=10, headers=...)`. -/
structure ProbeEnv where
  resolve : String → DnsOutcome
  fetch : String → HttpOutcome

/-- Python `str.lower()`, applied character-wise (adequate for the ASCII
names this repository manipulates). -/
def pyLower (s : String) : String :=
  (s.data.map Char.toLower).asString

/-- `business.name.lower().replace(' ', '').replace('-', '')`
(`website_check_tasks.py` line 142). -/
def sanitize_name (s : String) : String :=
  ((pyLower s).data.filter (fun c => !(c == ' ' || c == '-'))).asString

/-- `f"https://{business.name.lower().replace(' ', '')}.nl"` — the URL the
task records on the check row and writes into `Business.website_url`
(`website_check_tasks.py` lines 59, 77, 90); note it strips spaces but not
hyphens. -/
def url_from_name (s : String) : String :=
  "https://" ++ ((pyLower s).data.filter (fun c => !(c == ' '))).asString ++ ".nl"

/-- `potential_domains` list, `website_check_tasks.py` lines 143-149. -/
def potential_domains (name : String) : List String :=
  let n := sanitize_name name
  [n ++ ".nl", n ++ ".com", n ++ ".be", n ++ ".de", n ++ ".lu"]

/-- The `check_details` accumulator dict, `website_check_tasks.py`
lines 151-158. -/
structure CheckDetails where
  dns_records : List String
  headers : List (String × String)
  status_code : Option Nat
  response_time : Option Nat
  error_message : Option String
  is_error : Bool
deriving DecidableEq, Repr

/-- Initial `check_details` value (`website_check_tasks.py` lines 151-158). -/
def initDetails : CheckDetails :=
  { dns_records := [], headers := [], status_code := none,
    response_time := none, error_message := none, is_error := false }

/-- The `for domain in potential_domains` loop of `check_business_website`
(`website_check_tasks.py` lines 160-196).  On `NXDOMAIN` move on; on any
other resolution error record it in `error_message` and move on; on a
resolved domain fetch it: a fetch exception is recorded and the loop moves
on, a response records status/headers/elapsed and returns
`(True, 0.9, details)` for status 200, `(True, 0.7, details)` for any other
status `< 400`, and otherwise moves on; an exhausted list returns
`(False, 0.0, details)`. -/
def check_domains (env : ProbeEnv) : CheckDetails → List String → Bool × Rat × CheckDetails
  | det, [] => (false, 0, det)
  | det, d :: rest =>
    match env.resolve d with
    | DnsOutcome.nxdomain => check_domains env det rest
    | DnsOutcome.dnsError msg =>
        check_domains env { det with error_message := some msg } rest
    | DnsOutcome.resolved recs =>
        let det1 := { det with dns_records := recs }
        match env.fetch d with
        | HttpOutcome.httpError msg =>
            check_domains env { det1 with error_message := some msg } rest
        | HttpOutcome.response status hdrs elapsed =>
            let det2 := { det1 with status_code := some status,
                                    response_time := some elapsed,
                                    headers := hdrs }
            if status = 200 then (true, 9/10, det2)
            else if status < 400 then (true, 7/10, det2)
            else check_domains env det2 rest

/-- `check_business_website`, `website_check_tasks.py` lines 140-196. -/
def check_business_website (env : ProbeEnv) (name : String) : Bool × Rat × CheckDetails :=
  check_domains env initDetails (potential_domains name)

/-- Python truthiness of the `business_ids` argument: `None` and `[]` are
both falsy in `if business_ids:` (`website_check_tasks.py` line 36). -/
def listTruthy : Option (List Nat) → Bool
  | none => false
  | some [] => false
  | some (_ :: _) => true

/-- Business selection, `website_check_tasks.py` lines 36-42: a truthy id
list selects the businesses whose `id` is in it; otherwise take up to 100
businesses whose `website_exists` column is NULL. -/
def get_businesses_to_check (table : List BusinessR) (business_ids : Option (List Nat)) :
    List BusinessR :=
  if listTruthy business_ids then
    table.filter (fun b => (business_ids.getD []).contains b.id)
  else
    (table.filter (fun b => b.website_exists.isNone)).take 100

/-- One iteration of the per-business loop, `website_check_tasks.py`
lines 50-104.  `fault = some msg` models an exception raised inside the
`try` body for this business (e.g. a persistence conflict) and caught by
the `except` at lines 82-96: an error `WebsiteCheck` row is added and the
business is counted failed, but the `Business` record itself is not
touched.  With `fault = none` the probe result is recorded on a check row,
the business's cached website fields are overwritten (`website_url` only
when existence is true), and the business is counted successful.  The
returned `Bool` is that success flag. -/
def check_one (env : ProbeEnv) (fault : Option String) (now : Nat) (b : BusinessR) :
    BusinessR × WebsiteCheckR × Bool :=
  match fault with
  | some msg =>
      (b,
       { business_id := b.id, check_type := "combined",
         url_checked := url_from_name b.name,
         website_exists := false, confidence_score := 0,
         status_code := none, response_time := none,
         dns_records := [], headers := [],
         error_message := some msg, is_error := true },
       false)
  | none =>
      let r := check_business_website env b.name
      let we := r.1
      let conf := r.2.1
      let det := r.2.2
      let check : WebsiteCheckR :=
        { business_id := b.id, check_type := "combined",
          url_checked := url_from_name b.name,
          website_exists := we, confidence_score := conf,
          status_code := det.status_code, response_time := det.response_time,
          dns_records := det.dns_records, headers := det.headers,
          error_message := det.error_message, is_error := det.is_error }
      let b1 := { b with website_exists := some we,
                         website_confidence_score := some conf,
                         last_checked := some now,
                         website_url := if we then some (url_from_name b.name)
                                        else b.website_url }
      (b1, check, true)

/-- The whole per-business loop (`website_check_tasks.py` lines 50-104),
indexed so that `faults i` is the fault injected at the i-th selected
business.  Returns the updated businesses (in order), the inserted check
rows (in order), and the `successful_checks` / `failed_checks` counters. -/
def run_checks (env : ProbeEnv) (faults : Nat → Option String) (now : Nat) :
    Nat → List BusinessR → List BusinessR × List WebsiteCheckR × Nat × Nat
  | _, [] => ([], [], 0, 0)
  | i, b :: rest =>
    let step := check_one env (faults i) now b
    let tail := run_checks env faults now (i + 1) rest
    (step.1 :: tail.1, step.2.1 :: tail.2.1,
     tail.2.2.1 + (if step.2.2 then 1 else 0),
     tail.2.2.2 + (if step.2.2 then 0 else 1))

/-- The `check_websites` Celery task, `website_check_tasks.py`
lines 21-137: mark the job running, select the businesses, run the
per-business loop, then finalize the job as completed with
`total = processed = len(businesses)`, `successful = successful_checks`,
`failed = failed_checks`.  Per-business `last_checked` instants are
collapsed to the single instant `tCheck`. -/
def check_websites (env : ProbeEnv) (faults : Nat → Option String)
    (tStart tCheck tEnd : Nat) (job : Option CrawlJob)
    (table : List BusinessR) (business_ids : Option (List Nat)) :
    Option CrawlJob × List BusinessR × List WebsiteCheckR :=
  let jobR := job.map (fun j => executor_start j tStart)
  let selected := get_businesses_to_check table business_ids
  let res := run_checks env faults tCheck 0 selected
  let jobF := jobR.map (fun j =>
    finalize_success j tEnd selected.length res.2.2.1 res.2.2.2)
  (jobF, res.1, res.2.1)

/-- One candidate business dict produced by the discovery source
(`crawl_tasks.py` lines 37-69), restricted to the fields the `BusinessR`
model carries. -/
structure Candidate where
  name : String
  source : String
  source_id : String
  website_exists : Option Bool
  website_url : Option String
deriving DecidableEq, Repr

/-- `Business(**business_data)` for a candidate (`crawl_tasks.py`
line 81).  The surrogate `id` is assigned by the store at commit time and
is irrelevant to the modelled logic; it is left 0 here. -/
def mkBusiness (c : Candidate) : BusinessR :=
  { id := 0, name := c.name, website_exists := c.website_exists,
    website_url := c.website_url, website_confidence_score := none,
    last_checked := none, source := some c.source, source_id := some c.source_id }

/-- The per-candidate loop of `crawl_google_maps` (`crawl_tasks.py`
lines 72-98).  The duplicate query filters on `Business.source_id` alone
(lines 75-77) — the `source` column is not part of the filter — and, the
session being non-autoflushing, it only sees rows already committed, not
businesses `db.add`ed earlier in the same batch.  Returns the list of
newly added businesses (in iteration order) and the `businesses_found`
counter. -/
def process_candidates (committed : List BusinessR) :
    List Candidate → List BusinessR × Nat
  | [] => ([], 0)
  | c :: rest =>
    let existing := committed.find? (fun b => b.source_id == some c.source_id)
    let tail := process_candidates committed rest
    match existing with
    | none => (mkBusiness c :: tail.1, tail.2 + 1)
    | some _ => tail

/-- The hard-coded `example_businesses` list (`crawl_tasks.py`
lines 37-69), restricted to the modelled fields; `source_id`s are
`gm_1_{job_id}` and `gm_2_{job_id}`. -/
def example_businesses (job_id : Nat) (location : String) : List Candidate :=
  [ { name := "Test Business 1 - " ++ location, source := "google_maps",
      source_id := "gm_1_" ++ toString job_id,
      website_exists := some false, website_url := none },
    { name := "Test Business 2 - " ++ location, source := "google_maps",
      source_id := "gm_2_" ++ toString job_id,
      website_exists := some true,
      website_url := some "https://testbusiness2.nl" } ]

/-- The `crawl_google_maps` Celery task, `crawl_tasks.py` lines 18-130:
mark the job running, process the placeholder candidate list against the
committed businesses, then finalize the job as completed with
`total = processed = len(example_businesses)`,
`successful = businesses_found`, `failed = total - businesses_found`. -/
def crawl_google_maps (tStart tEnd : Nat) (job : Option CrawlJob)
    (committed : List BusinessR) (job_id : Nat) (location : String) :
    Option CrawlJob × List BusinessR × Nat :=
  let jobR := job.map (fun j => executor_start j tStart)
  let cands := example_businesses job_id location
  let res := process_candidates committed cands
  let jobF := jobR.map (fun j =>
    finalize_success j tEnd cands.length res.2 (cands.length - res.2))
  (jobF, res.1, res.2)

/-- Reference definition written from the spec's words (§4.3 steps 2-3),
for comparison with `check_domains`: the HTTP status of the first candidate
domain that resolves and whose fetch yields a status `< 400`; `none` when
no candidate does. -/
def specFirstHitStatus (env : ProbeEnv) : List String → Option Nat
  | [] => none
  | d :: rest =>
    match env.resolve d with
    | DnsOutcome.resolved _ =>
        match env.fetch d with
        | HttpOutcome.response status _ _ =>
            if status < 400 then some status else specFirstHitStatus env rest
        | HttpOutcome.httpError _ => specFirstHitStatus env rest
    | _ => specFirstHitStatus env rest

/-- Reference definition written from the spec's words (§4.3 step 3): the
`(website_exists, confidence)` pair the probe outcome should map to —
`0.9` for status 200, `0.7` for any other status `< 400`, `(false, 0.0)`
when no candidate responded below 400. -/
def specConfidencePair : Option Nat → Bool × Rat
  | some s => (true, if s = 200 then 9/10 else 7/10)
  | none => (false, 0)

/-- Whether an API call committed a change (`Except.ok`) or was rejected
with an HTTP error before `db.commit()`. -/
def isAccepted (r : Except String (CrawlJob × DispatchCall)) : Bool :=
  match r with
  | Except.ok _ => true
  | Except.error _ => false

/-- A freshly created website-check job as `start_website_check` builds it
(`app/api/v1/jobs.py` lines 96-101). -/
def baseJob : CrawlJob :=
  { id := 1, name := "Website check job", job_type := JobType.website_check,
    status := JobStatus.pending, parameters := none,
    target_location := none, target_industry := none,
    total_items := 0, processed_items := 0, successful_items := 0,
    failed_items := 0, error_message := none, retry_count := 0,
    max_retries := 3, celery_task_id := none,
    started_at := none, completed_at := none }

/-- A job already cancelled through `cancel_job` (note: `completed_at` is
`none`, since `cancel_job` never assigns it). -/
def cancelledJob : CrawlJob :=
  { baseJob with status := JobStatus.cancelled, celery_task_id := some "t7" }

/-- A failed LinkedIn discovery job with retries remaining. -/
def failedLinkedinJob : CrawlJob :=
  { baseJob with id := 2, name := "LinkedIn crawl - Amsterdam",
                 job_type := JobType.linkedin, status := JobStatus.failed,
                 error_message := some "not implemented" }

/-- A failed Google-Maps discovery job with retries remaining and a
non-null `completed_at` (as left behind when an executor re-run fails
after an earlier run completed: `finalize_failure` never clears the
column). -/
def failedGmJob : CrawlJob :=
  { baseJob with id := 7, name := "Google Maps crawl - Amsterdam",
                 job_type := JobType.google_maps, status := JobStatus.failed,
                 target_location := some "Amsterdam",
                 error_message := some "timeout", retry_count := 1,
                 celery_task_id := some "t3",
                 started_at := some 4, completed_at := some 5 }

/-- The record `retry_job` commits for `failedGmJob` when the new Celery
task id is `tid`. -/
def retriedGm (tid : String) : CrawlJob :=
  { failedGmJob with status := JobStatus.pending, retry_count := 2,
                     error_message := none, celery_task_id := some tid }

/-- A job that has already been through one executor run and failed, with
`started_at` recorded by that run. -/
def ranJob : CrawlJob :=
  { baseJob with status := JobStatus.failed, started_at := some 3,
                 error_message := some "boom" }

/-- Probe world for the §8 "Test Business 2" scenario: only
`testbusiness2.nl` resolves, and fetching it returns HTTP 200. -/
def envTB2 : ProbeEnv :=
  { resolve := fun d =>
      if d == "testbusiness2.nl" then DnsOutcome.resolved ["93.184.216.34"]
      else DnsOutcome.nxdomain,
    fetch := fun d =>
      if d == "testbusiness2.nl" then HttpOutcome.response 200 [] 1
      else HttpOutcome.httpError "unreachable" }

/-- The business named "Test Business 2", not yet checked. -/
def bizTB2 : BusinessR :=
  { id := 2, name := "Test Business 2", website_exists := none,
    website_url := none, website_confidence_score := none,
    last_checked := none, source := some "google_maps",
    source_id := some "gm_2" }

/-- Probe world for the §8 end-to-end scenario: `testbusiness1.nl`
resolves and fetches with HTTP 200; resolution of every other domain
raises a (non-`NXDOMAIN`) DNS error. -/
def envC5 : ProbeEnv :=
  { resolve := fun d =>
      if d == "testbusiness1.nl" then DnsOutcome.resolved ["192.0.2.1"]
      else DnsOutcome.dnsError "The DNS query lifetime expired",
    fetch := fun d =>
      if d == "testbusiness1.nl" then HttpOutcome.response 200 [] 1
      else HttpOutcome.httpError "no route" }

/-- Business id 1 of the end-to-end scenario. -/
def bizC5a : BusinessR :=
  { id := 1, name := "Test Business 1", website_exists := none,
    website_url := none, website_confidence_score := none,
    last_checked := none, source := some "google_maps",
    source_id := some "gm_1" }

/-- The pending check-website job of the end-to-end scenario. -/
def jobC5 : CrawlJob :=
  { baseJob with id := 3, celery_task_id := some "t1" }

/-- The full `check_websites` run of the end-to-end scenario over
businesses [1, 2]. -/
def c5result : Option CrawlJob × List BusinessR × List WebsiteCheckR :=
  check_websites envC5 (fun _ => none) 10 11 12 (some jobC5)
    [bizC5a, bizTB2] (some [1, 2])

/-- A discovery candidate used to probe the dedup logic. -/
def dupCandidate : Candidate :=
  { name := "Dup Shop", source := "google_maps", source_id := "gm_dup",
    website_exists := none, website_url := none }

/-- A probe world in which nothing resolves (the probe is irrelevant on
the per-business error path). -/
def envNone : ProbeEnv :=
  { resolve := fun _ => DnsOutcome.nxdomain,
    fetch := fun _ => HttpOutcome.httpError "unused" }

/-- A business with a previously cached positive outcome, used to observe
whether an errored check overwrites the cache. -/
def bizC9 : BusinessR :=
  { id := 5, name := "Err Shop", website_exists := some true,
    website_url := some "https://errshop.nl",
    website_confidence_score := some (7/10), last_checked := some 2,
    source := none, source_id := none }

/-! ## Helper lemmas -/

theorem any_eq_find_isSome (l : List BusinessR) (p : BusinessR → Bool) :
    l.any p = (l.find? p).isSome := by
  induction l with
  | nil => rfl
  | cons x xs ih => cases hx : p x <;> simp [List.find?_cons, hx, ih]

theorem check_domains_firstHit (env : ProbeEnv) :
    ∀ (doms : List String) (det : CheckDetails),
      ((check_domains env det doms).1, (check_domains env det doms).2.1) =
        specConfidencePair (specFirstHitStatus env doms) := by
  intro doms
  induction doms with
  | nil => intro det; rfl
  | cons d rest ih =>
    intro det
    cases hres : env.resolve d with
    | nxdomain => simp [check_domains, specFirstHitStatus, hres, ih]
    | dnsError msg => simp [check_domains, specFirstHitStatus, hres, ih]
    | resolved recs =>
      cases hfetch : env.fetch d with
      | httpError msg => simp [check_domains, specFirstHitStatus, hres, hfetch, ih]
      | response status hdrs elapsed =>
        by_cases h200 : status = 200
        · subst h200
          simp [check_domains, specFirstHitStatus, hres, hfetch, specConfidencePair]
        · by_cases hlt : status < 400
          · simp [check_domains, specFirstHitStatus, hres, hfetch, h200, hlt,
                  specConfidencePair]
          · simp [check_domains, specFirstHitStatus, hres, hfetch, h200, hlt, ih]

/-! ## Claims -/

/-- C1 (counterexample): cancelling a pending job yields a job in state
cancelled whose `completed_at` is still null, contradicting the claim that
the transition to cancelled sets `completed_at` (and the claimed
invariant that `completed_at` is non-null whenever the state is in
{completed, failed, cancelled}); the executor failure handler likewise
leaves it null. -/
theorem cancel_without_completed_at :
    cancel_job baseJob = Except.ok { baseJob with status := JobStatus.cancelled }
    ∧ ({ baseJob with status := JobStatus.cancelled } : CrawlJob).completed_at = none
    ∧ (finalize_failure { baseJob with status := JobStatus.running } "boom").status
        = JobStatus.failed
    ∧ (finalize_failure { baseJob with status := JobStatus.running } "boom").completed_at
        = none := by
  refine ⟨rfl, rfl, rfl, rfl⟩

/-- C1 (amended): `completed_at` is assigned only by the executor's
successful-completion write; `cancel_job` and the executor error handler
leave it unchanged, so it remains null for a job cancelled or failed
without ever completing. -/
theorem completed_at_set_only_by_success_finalize :
    ∀ (j : CrawlJob) (now total ok bad : Nat) (msg : String),
      (finalize_success j now total ok bad).completed_at = some now
      ∧ (finalize_failure j msg).completed_at = j.completed_at
      ∧ (match cancel_job j with
         | Except.ok j' => j'.completed_at = j.completed_at
         | Except.error _ => True) := by
  intro j now total ok bad msg
  refine ⟨rfl, rfl, ?_⟩
  unfold cancel_job
  split
  · rename_i j' heq
    split at heq
    · cases heq
      rfl
    · cases heq
  · trivial

/-- C2 (counterexample): a job already cancelled is moved to completed by
a late executor success report and to failed by a late failure report —
the executor's final status write does not check the current state, so
cancellation does not prevent subsequent transitions. -/
theorem late_report_overrides_cancelled :
    cancelledJob.status = JobStatus.cancelled
    ∧ (finalize_success cancelledJob 9 2 2 0).status = JobStatus.completed
    ∧ (finalize_failure cancelledJob "late failure").status = JobStatus.failed := by
  refine ⟨rfl, rfl, rfl⟩

/-- C2 (amended): a cancellation request on a job in {completed, failed,
cancelled} is rejected (nothing is committed); on {pending, running} it
commits exactly the status change to cancelled; but the executor's final
success/failure write sets completed/failed unconditionally, so a late
report does move a cancelled job out of cancelled. -/
theorem cancel_transitions_and_late_reports :
    ∀ (j : CrawlJob),
      ((j.status = JobStatus.pending ∨ j.status = JobStatus.running) →
          cancel_job j = Except.ok { j with status := JobStatus.cancelled })
      ∧ ((j.status = JobStatus.completed ∨ j.status = JobStatus.failed
            ∨ j.status = JobStatus.cancelled) →
          cancel_job j = Except.error "Job cannot be cancelled")
      ∧ (∀ (now total ok bad : Nat) (msg : String),
          (finalize_success j now total ok bad).status = JobStatus.completed
          ∧ (finalize_failure j msg).status = JobStatus.failed) := by
  intro j
  refine ⟨?_, ?_, ?_⟩
  · intro h
    unfold cancel_job
    rw [if_pos h]
  · intro h
    unfold cancel_job
    rw [if_neg]
    rintro (h' | h') <;> rcases h with h | h | h <;> rw [h'] at h <;> cases h
  · intro now total ok bad msg
    exact ⟨rfl, rfl⟩

/-- C2 (witness): the amended theorem applied to a running job and to the
concrete cancelled job. -/
theorem cancel_transitions_and_late_reports_witness :
    cancel_job { baseJob with status := JobStatus.running }
        = Except.ok { baseJob with status := JobStatus.cancelled }
    ∧ cancel_job cancelledJob = Except.error "Job cannot be cancelled"
    ∧ (finalize_success cancelledJob 9 2 2 0).status = JobStatus.completed :=
  ⟨(cancel_transitions_and_late_reports _).1 (Or.inr rfl),
   (cancel_transitions_and_late_reports cancelledJob).2.1 (Or.inr (Or.inr rfl)),
   ((cancel_transitions_and_late_reports cancelledJob).2.2 9 2 2 0 "x").1⟩

/-- C3 (counterexample): a failed LinkedIn job with retries remaining
satisfies `can_retry`, yet its retry request is rejected with
"Unsupported job type for retry" — acceptance is not equivalent to
`status = failed ∧ retry_count < max_retries`. -/
theorem retry_rejected_for_unsupported_kind :
    failedLinkedinJob.can_retry = true
    ∧ retry_job failedLinkedinJob "t2"
        = Except.error "Unsupported job type for retry" := by
  refine ⟨rfl, rfl⟩

/-- C3 (amended): a retry request commits if and only if `can_retry`
holds (state failed and `retry_count < max_retries`) *and* the job type
is GOOGLE_MAPS or WEBSITE_CHECK; every rejected request (either reason)
returns an error without committing anything, leaving the stored record
unmutated. -/
theorem retry_acceptance_characterization :
    ∀ (j : CrawlJob) (tid : String),
      isAccepted (retry_job j tid) =
        (j.can_retry
          && (j.job_type == JobType.google_maps
              || j.job_type == JobType.website_check)) := by
  intro j tid
  cases hcr : j.can_retry <;> cases hjt : j.job_type <;>
    simp [retry_job, isAccepted, hcr, hjt] <;> decide

/-- C8 (counterexample): re-running an executor on a job whose
`started_at` was already recorded overwrites it with the new start time —
`started_at` is not "set exactly once and never overwritten". -/
theorem executor_start_overwrites_started_at :
    ranJob.started_at = some 3
    ∧ (executor_start ranJob 7).started_at = some 7
    ∧ (executor_start ranJob 7).started_at ≠ some 3 := by
  refine ⟨rfl, rfl, by decide⟩

/-- C9 (counterexample): a per-business exception produces an `is_error`
WebsiteCheck row but leaves the Business record — its cached
`website_exists`, `website_confidence_score`, `last_checked` and
`website_url` — completely untouched, contradicting the claim that an
errored check still overwrites the cache. -/
theorem errored_check_leaves_cache :
    (check_one envNone (some "IntegrityError: duplicate key") 9 bizC9).1 = bizC9
    ∧ (check_one envNone (some "IntegrityError: duplicate key") 9 bizC9).1.last_checked
        = some 2
    ∧ (check_one envNone (some "IntegrityError: duplicate key") 9 bizC9).2.1.is_error
        = true
    ∧ (check_one envNone (some "IntegrityError: duplicate key") 9 bizC9).2.1.website_exists
        = false := by
  refine ⟨rfl, rfl, rfl, rfl⟩

/-- C9 (amended): for every non-errored per-business check the Business
cache is overwritten unconditionally — `website_exists` and
`website_confidence_score` from the probe outcome (including negative
outcomes), `last_checked` to the check instant, and `website_url` only
when existence is true; an errored check (per-business exception) adds an
`is_error` WebsiteCheck row but does not touch the Business record. -/
theorem cache_update_policy :
    ∀ (env : ProbeEnv) (now : Nat) (b : BusinessR) (msg : String),
      ((check_one env none now b).1.website_exists
          = some (check_business_website env b.name).1
        ∧ (check_one env none now b).1.website_confidence_score
            = some (check_business_website env b.name).2.1
        ∧ (check_one env none now b).1.last_checked = some now
        ∧ (check_one env none now b).1.website_url
            = (if (check_business_website env b.name).1 then
                 some (url_from_name b.name)
               else b.website_url))
      ∧ ((check_one env (some msg) now b).1 = b
         ∧ (check_one env (some msg) now b).2.1.is_error = true) := by
  intro env now b msg
  exact ⟨⟨rfl, rfl, rfl, rfl⟩, rfl, rfl⟩

/-- C10: a present-but-empty `business_ids` list is falsy in the branch
`if business_ids:`, so it is treated exactly like an absent list — the
executor selects the fallback batch of up to 100 businesses whose
`website_exists` column is null instead of checking zero businesses. -/
theorem empty_id_list_falls_back :
    ∀ (table : List BusinessR),
      get_businesses_to_check table (some []) = get_businesses_to_check table none
      ∧ get_businesses_to_check table (some [])
          = (table.filter (fun b => b.website_exists.isNone)).take 100 := by
  intro table
  exact ⟨rfl, rfl⟩

/-- C4 (counterexample): an accepted retry of a failed Google-Maps job
whose `completed_at` is non-null commits a record whose `completed_at` is
still that old instant — `retry_job` never clears `completed_at`,
contradicting the claim. -/
theorem retry_keeps_completed_at :
    retry_job failedGmJob "t4"
        = Except.ok (retriedGm "t4",
            DispatchCall.crawlGoogleMaps 7 (some "Amsterdam") none)
    ∧ (retriedGm "t4").completed_at = some 5
    ∧ (retriedGm "t4").completed_at ≠ none := by
  refine ⟨rfl, rfl, by decide⟩

/-- C4 (amended): an accepted retry sets the state back to pending,
increments `retry_count` by exactly one, clears `error_message`, records
the new task id, and re-dispatches the same job kind with the original
parameters (`target_location`/`target_industry` for a Google-Maps job; no
explicit id list — all businesses — for a check-website job); it leaves
`completed_at` (and `started_at`) unchanged rather than clearing them. -/
theorem retry_effects :
    ∀ (j : CrawlJob) (tid : String) (j' : CrawlJob) (d : DispatchCall),
      retry_job j tid = Except.ok (j', d) →
        j'.status = JobStatus.pending
        ∧ j'.retry_count = j.retry_count + 1
        ∧ j'.error_message = none
        ∧ j'.completed_at = j.completed_at
        ∧ j'.started_at = j.started_at
        ∧ j'.celery_task_id = some tid
        ∧ j'.parameters = j.parameters
        ∧ (j.job_type = JobType.google_maps →
             d = DispatchCall.crawlGoogleMaps j.id j.target_location j.target_industry)
        ∧ (j.job_type = JobType.website_check →
             d = DispatchCall.checkWebsites j.id none) := by
  intro j tid j' d h
  unfold retry_job at h
  by_cases hcr : j.can_retry = false
  · rw [if_pos hcr] at h
    cases h
  · rw [if_neg hcr] at h
    cases hjt : j.job_type <;> rw [hjt] at h <;> cases h <;>
      simp [hjt]

/-- C4 (witness): the amended theorem applied to the concrete failed
Google-Maps job. -/
theorem retry_effects_witness :
    (retriedGm "t9").status = JobStatus.pending
    ∧ (retriedGm "t9").retry_count = failedGmJob.retry_count + 1
    ∧ (retriedGm "t9").error_message = none
    ∧ (retriedGm "t9").completed_at = failedGmJob.completed_at
    ∧ (retriedGm "t9").started_at = failedGmJob.started_at
    ∧ (retriedGm "t9").celery_task_id = some "t9"
    ∧ (retriedGm "t9").parameters = failedGmJob.parameters
    ∧ (failedGmJob.job_type = JobType.google_maps →
         DispatchCall.crawlGoogleMaps 7 (some "Amsterdam") none
           = DispatchCall.crawlGoogleMaps failedGmJob.id failedGmJob.target_location
               failedGmJob.target_industry)
    ∧ (failedGmJob.job_type = JobType.website_check →
         DispatchCall.crawlGoogleMaps 7 (some "Amsterdam") none
           = DispatchCall.checkWebsites failedGmJob.id none) :=
  retry_effects failedGmJob "t9" (retriedGm "t9")
    (DispatchCall.crawlGoogleMaps 7 (some "Amsterdam") none) rfl

/-- C5 (counterexample): in the §8 end-to-end scenario — business 1's
first candidate domain resolves and fetches with HTTP 200, every
candidate domain of business 2 raises a DNS error on resolution — the job
completes with `successful_items = 2` and `failed_items = 0`, not the
claimed `successful = 1, failed = 1`: the DNS errors are caught inside
`check_business_website`, so business 2's check completes "successfully"
with a negative outcome. -/
theorem dns_error_counts_successful :
    c5result.1.map CrawlJob.successful_items = some 2
    ∧ c5result.1.map CrawlJob.failed_items = some 0
    ∧ c5result.1.map CrawlJob.successful_items ≠ some 1 := by
  refine ⟨rfl, rfl, by decide⟩

/-- C5 (amended): the end-to-end scenario completes the job with
`total_items = 2, processed_items = 2, successful_items = 2,
failed_items = 0` — a business whose every candidate raises a DNS error
is recorded as having no website, not as a failed item. -/
theorem check_job_scenario_counters :
    c5result.1 = some { jobC5 with status := JobStatus.completed,
                                   started_at := some 10,
                                   completed_at := some 12,
                                   total_items := 2, processed_items := 2,
                                   successful_items := 2, failed_items := 0 } := by
  rfl

/-- C6 (counterexample): two candidates of the same batch sharing
`(source, source_id)` both get inserted — the duplicate query only sees
businesses committed before the batch (the session does not autoflush),
so the second candidate is not skipped and two Business rows with the
same `(source, source_id)` are created. -/
theorem same_batch_duplicates_both_inserted :
    (process_candidates [] [dupCandidate, dupCandidate]).1.length = 2
    ∧ (process_candidates [] [dupCandidate, dupCandidate]).1.map BusinessR.source
        = [some "google_maps", some "google_maps"]
    ∧ (process_candidates [] [dupCandidate, dupCandidate]).1.map BusinessR.source_id
        = [some "gm_dup", some "gm_dup"]
    ∧ (process_candidates [] [dupCandidate, dupCandidate]).2 = 2 := by
  refine ⟨rfl, rfl, rfl, rfl⟩

/-- C6 (amended): the dedup check consults only businesses already
committed before the batch and matches on `source_id` alone (the `source`
column is not part of the filter): exactly the candidates whose
`source_id` equals no committed business's `source_id` are inserted, in
order, and `businesses_found` counts them; a candidate matching a
committed `source_id` is skipped (processed, since the final report sets
`processed = total`, but not successful).  Within one batch, duplicates
are not detected. -/
theorem dedup_by_committed_source_id :
    ∀ (committed : List BusinessR) (cands : List Candidate),
      process_candidates committed cands =
        (((cands.filter (fun c =>
              !(committed.any (fun b => b.source_id == some c.source_id)))).map
            mkBusiness),
         (cands.filter (fun c =>
              !(committed.any (fun b => b.source_id == some c.source_id)))).length) := by
  intro committed cands
  induction cands with
  | nil => rfl
  | cons c rest ih =>
    rw [List.filter_cons]
    rw [any_eq_find_isSome]
    cases hf : committed.find? (fun b => b.source_id == some c.source_id) with
    | none => simp [process_candidates, hf, ih]
    | some b => simp [process_candidates, hf, ih]

/-- C7: `check_business_website` tries the candidate domains in order and
its `(website_exists, confidence)` outcome is exactly
`specConfidencePair` of the first domain that resolves and fetches with
HTTP status `< 400` (0.9 for status 200, 0.7 for any other status
`< 400`, and `(false, 0)` when no candidate qualifies); concretely, for
the business named "Test Business 2" whose `testbusiness2.nl` fetches
with status 200, the produced WebsiteCheck has `website_exists = true`,
`confidence_score = 0.9`, `status_code = 200`, and the business's
`website_url` is set to `https://testbusiness2.nl`. -/
theorem probe_first_hit_and_testbusiness2 :
    (∀ (env : ProbeEnv) (name : String),
       ((check_business_website env name).1, (check_business_website env name).2.1)
         = specConfidencePair (specFirstHitStatus env (potential_domains name)))
    ∧ (check_one envTB2 none 5 bizTB2).2.1.website_exists = true
    ∧ (check_one envTB2 none 5 bizTB2).2.1.confidence_score = 9/10
    ∧ (check_one envTB2 none 5 bizTB2).2.1.status_code = some 200
    ∧ (check_one envTB2 none 5 bizTB2).1.website_url
        = some "https://testbusiness2.nl" := by
  refine ⟨?_, rfl, rfl, rfl, rfl⟩
  intro env name
  exact check_domains_firstHit env (potential_domains name) initDetails

/-- C8 (amended): `retry_job` leaves `started_at` untouched, and every
executor run — including the re-run after a retry — assigns `started_at`
anew along with setting the state to running; `started_at` is therefore
overwritten on each run, not set exactly once. -/
theorem retry_rerun_resets_started_at :
    ∀ (j : CrawlJob) (tid : String) (j' : CrawlJob) (d : DispatchCall) (t : Nat),
      retry_job j tid = Except.ok (j', d) →
        j'.started_at = j.started_at
        ∧ (executor_start j' t).started_at = some t
        ∧ (executor_start j' t).status = JobStatus.running := by
  intro j tid j' d t h
  refine ⟨(retry_effects j tid j' d h).2.2.2.2.1, rfl, rfl⟩

/-- C8 (witness): the amended theorem applied to the concrete failed
Google-Maps job, whose first run recorded `started_at = 4`; the re-run at
instant 8 overwrites it. -/
theorem retry_rerun_resets_started_at_witness :
    (retriedGm "t8").started_at = failedGmJob.started_at
    ∧ (executor_start (retriedGm "t8") 8).started_at = some 8
    ∧ (executor_start (retriedGm "t8") 8).status = JobStatus.running :=
  retry_rerun_resets_started_at failedGmJob "t8" (retriedGm "t8")
    (DispatchCall.crawlGoogleMaps 7 (some "Amsterdam") none) 8 rfl
